import Mathlib

/-!
Shallow embedding of TheAltText's competitor-analysis and WCAG-checker
services (`backend/app/services/competitor_analysis.py` and
`backend/app/services/wcag_checker.py`), together with theorems settling
the specification's claims about them.

Modelling conventions:

* Strings are handled through their character lists so that every string
  operation is structurally recursive and kernel-reducible.
* Scores are exact rationals; Python's `round(x, 1)` is modelled as
  round-half-to-even of the tens-scaled value (Python's tie rule),
  idealised over exact rationals rather than binary floats.
* Network access is modelled by a function from URL to either a fetched
  page or an exception message (`Except`); the BeautifulSoup parse of a
  page is modelled by records carrying exactly the attribute values the
  code reads.
* The crawler's `while` loop is embedded with an explicit fuel parameter;
  `crawl_fuel` is an upper bound on the number of iterations the loop can
  make (each iteration pops one queued URL, and at most
  `1 + max_pages * (max_pages * 2)` URLs are ever queued), so the model
  runs the loop to completion.  All safety theorems are proved for every
  fuel value, hence hold of the Python loop however long it runs.
* Wall-clock fields (`processing_time_ms`, `analyzed_at`, `checked_at`)
  and presentation-only f-string report text (gap/opportunity
  descriptions, advantage sentences) are not modelled; for those lists
  the model keeps the data the sentences are generated from.
-/

namespace TheAltText

/-! ### Character-list string utilities (kernel-reducible) -/

/-- Is the first list a prefix of the second (`chars_pre p s`)? -/
def chars_pre : List Char → List Char → Bool
  | [], _ => true
  | _ :: _, [] => false
  | a :: as, b :: bs => a == b && chars_pre as bs

/-- Is the first list an infix of the second? -/
def chars_inf (sub : List Char) : List Char → Bool
  | [] => chars_pre sub []
  | c :: t => chars_pre sub (c :: t) || chars_inf sub t

/-- Python `needle in hay` (substring containment). -/
def str_contains (hay needle : String) : Bool := chars_inf needle.data hay.data

/-- Python `s.startswith(p)`. -/
def str_starts_with (s p : String) : Bool := chars_pre p.data s.data

/-- Python `s[:n]` (character slice). -/
def str_take (s : String) (n : Nat) : String := String.mk (s.data.take n)

/-- Python `s.lower()` (ASCII letters; the attribute values involved are ASCII). -/
def str_lower (s : String) : String := String.mk (s.data.map Char.toLower)

/-- Python `s.upper()` (ASCII letters). -/
def str_upper (s : String) : String := String.mk (s.data.map Char.toUpper)

/-- The characters Python's `str.strip()` removes. -/
def py_space (c : Char) : Bool :=
  c == ' ' || c == '\t' || c == '\n' || c == '\r' || c == '\x0b' || c == '\x0c'

/-- Python `s.strip()`. -/
def str_strip (s : String) : String :=
  String.mk (((s.data.dropWhile py_space).reverse.dropWhile py_space).reverse)

/-- Split a character list at the first occurrence of `"://"`, returning the
parts before and after the marker. -/
def split_scheme_marker : List Char → Option (List Char × List Char)
  | [] => none
  | c :: t =>
    if chars_pre [':', '/', '/'] (c :: t) then some ([], t.drop 2)
    else
      match split_scheme_marker t with
      | none => none
      | some (pre, post) => some (c :: pre, post)

/-- `urlparse(u).scheme` for URLs of the shape `scheme://host/path`
(empty for URLs without a `"://"` marker, as `urlparse` then yields an
empty scheme for the URL shapes the crawler passes around). -/
def url_scheme (u : String) : String :=
  match split_scheme_marker u.data with
  | some (pre, _) => String.mk pre
  | none => ""

/-- `urlparse(u).netloc` for URLs of the shape `scheme://host/path`
(empty for URLs without a `"://"` marker). -/
def url_netloc (u : String) : String :=
  match split_scheme_marker u.data with
  | some (_, post) => String.mk (post.takeWhile (fun c => c != '/'))
  | none => ""

/-! ### Python `round(x, 1)` over exact rationals -/

/-- Round half to even (Python's `round` tie rule) on an exact rational. -/
def round_half_even (q : ℚ) : ℤ :=
  if q - ⌊q⌋ < 1 / 2 then ⌊q⌋
  else if 1 / 2 < q - ⌊q⌋ then ⌊q⌋ + 1
  else if ⌊q⌋ % 2 = 0 then ⌊q⌋ else ⌊q⌋ + 1

/-- Python `round(q, 1)` on an exact rational. -/
def round1 (q : ℚ) : ℚ := (round_half_even (q * 10) : ℚ) / 10

theorem round_half_even_nonneg {q : ℚ} (h : 0 ≤ q) : 0 ≤ round_half_even q := by
  have hf : 0 ≤ ⌊q⌋ := Int.floor_nonneg.mpr h
  unfold round_half_even
  split
  · exact hf
  · split
    · omega
    · split <;> omega

theorem round_half_even_le {q : ℚ} {n : ℤ} (h : q ≤ (n : ℚ)) : round_half_even q ≤ n := by
  have hf : ⌊q⌋ ≤ n := by
    have := Int.floor_le_floor h
    simpa using this
  by_cases h1 : q - ⌊q⌋ < 1 / 2
  · rw [round_half_even, if_pos h1]
    exact hf
  · have hge : (1 : ℚ) / 2 ≤ q - ⌊q⌋ := le_of_not_lt h1
    have hfl : (⌊q⌋ : ℚ) < (n : ℚ) := by linarith
    have hp1 : ⌊q⌋ + 1 ≤ n := by exact_mod_cast hfl
    rw [round_half_even, if_neg h1]
    split
    · omega
    · split <;> omega

theorem round_half_even_intCast (n : ℤ) : round_half_even (n : ℚ) = n := by
  unfold round_half_even
  rw [Int.floor_intCast]
  rw [if_pos (by norm_num)]

theorem round1_nonneg {q : ℚ} (h : 0 ≤ q) : 0 ≤ round1 q := by
  have h10 : (0 : ℚ) ≤ q * 10 := by nlinarith
  have h2 := round_half_even_nonneg h10
  unfold round1
  apply div_nonneg _ (by norm_num)
  exact_mod_cast h2

theorem round1_le_100 {q : ℚ} (h : q ≤ 100) : round1 q ≤ 100 := by
  have h10 : q * 10 ≤ ((1000 : ℤ) : ℚ) := by push_cast; nlinarith
  have h2 := round_half_even_le h10
  unfold round1
  rw [div_le_iff₀ (by norm_num : (0 : ℚ) < 10)]
  calc ((round_half_even (q * 10) : ℤ) : ℚ) ≤ ((1000 : ℤ) : ℚ) := by exact_mod_cast h2
    _ = 100 * 10 := by norm_num

theorem round1_hundred : round1 100 = 100 := by
  have h : (100 : ℚ) * 10 = ((1000 : ℤ) : ℚ) := by norm_num
  unfold round1
  rw [h, round_half_even_intCast]
  norm_num

/-! ### Data model: parsed elements and per-page reports

`Img` models a BeautifulSoup `<img>` tag through the attribute values the
two services read (`img.get(attr)`; absent string attributes default to
`""` as via `img.get(attr, "")`, the `alt` attribute keeps its
present/absent distinction as via `img.get("alt")`). -/

structure Img where
  src : String
  alt : Option String
  role : String
  aria_hidden : String
  aria_label : String
  aria_labelledby : String
  title : String
  longdesc : String
  width : String
  height : String
deriving DecidableEq, Repr

/-- An `<img>` with only `src`/`alt`/`role`/`aria-hidden` set, the
attributes `CompetitorAnalyzer` reads; the rest absent (empty). -/
def mk_img (src : String) (alt : Option String) (role : String) (aria_hidden : String) : Img :=
  { src := src, alt := alt, role := role, aria_hidden := aria_hidden
    aria_label := "", aria_labelledby := "", title := "", longdesc := ""
    width := "", height := "" }

/-- One entry of `_analyze_page`'s `image_details` list. -/
structure ImageDetail where
  src : String
  alt : Option String
  is_decorative : Bool
  quality : String
  issues : List String
deriving DecidableEq, Repr

/-- The per-page tally `_analyze_page` builds (`results` dict). -/
structure PageData where
  url : String
  total_images : Nat
  images_with_alt : Nat
  images_missing_alt : Nat
  images_poor_alt : Nat
  images_good_alt : Nat
  image_details : List ImageDetail
deriving DecidableEq, Repr

/-! ### CompetitorAnalyzer._assess_alt_quality -/

/-- A character matched by the regex class `[\w-]` (ASCII reading of `\w`). -/
def word_dash_char (c : Char) : Bool := c.isAlphanum || c == '_' || c == '-'

/-- Split a character list on `'.'`. -/
def split_dots : List Char → List (List Char)
  | [] => [[]]
  | c :: t =>
    if c == '.' then [] :: split_dots t
    else
      match split_dots t with
      | [] => [[c]]
      | h :: r => (c :: h) :: r

/-- The extension alternatives of the filename regex in
`_assess_alt_quality` (line 148) — note: no `bmp`/`tiff` there. -/
def assess_filename_exts : List (List Char) :=
  ["jpg".data, "jpeg".data, "png".data, "gif".data, "svg".data, "webp".data]

/-- `re.match(r"^[\w-]+\.(jpg|jpeg|png|gif|svg|webp)$", alt, re.IGNORECASE)`:
the string is `stem.ext` with a nonempty `[\w-]+` stem (which cannot
contain a dot) and one of the listed extensions, case-insensitively. -/
def is_filename_alt (alt : String) : Bool :=
  match split_dots (str_lower alt).data with
  | [stem, ext] => !stem.isEmpty && stem.all word_dash_char && assess_filename_exts.contains ext
  | _ => false

/-- The generic-word list of `_assess_alt_quality` (lines 153-154). -/
def generic_words : List String :=
  ["image", "photo", "picture", "icon", "logo", "graphic", "banner",
   "placeholder", "untitled", "img", "pic"]

/-- `CompetitorAnalyzer._assess_alt_quality(alt, src)` (lines 143-178).
The `src` parameter is accepted (as in the source signature) and never
read. -/
def assess_alt_quality (alt : String) (src : String) : String × List String :=
  if is_filename_alt alt then ("poor", ["Alt text is a filename"])
  else if generic_words.contains (str_strip (str_lower alt)) then
    ("poor", ["Generic/non-descriptive alt text"])
  else
    let issues : List String := []
    let issues := if str_starts_with (str_lower alt) "image of"
        || str_starts_with (str_lower alt) "picture of"
        || str_starts_with (str_lower alt) "photo of" then
      issues ++ ["Redundant prefix"] else issues
    let issues := if alt.length < 10 then
      issues ++ ["Too short — may not be descriptive enough"] else issues
    let issues := if alt.length > 250 then
      issues ++ ["Very long — consider using longdesc"] else issues
    let issues := if alt == str_upper alt && alt.length > 5 then
      issues ++ ["All uppercase"] else issues
    if issues.isEmpty then ("good", [])
    else if issues.any (fun i => str_contains i "filename" || str_contains i "Generic") then
      ("poor", issues)
    else ("acceptable", issues)

/-! ### CompetitorAnalyzer._analyze_page -/

/-- `role in ("presentation", "none") or img.get("aria-hidden") == "true"`
(`competitor_analysis.py` line 107; `wcag_checker.py` line 186 computes
the same condition as `role == "presentation" or role == "none" or
aria_hidden == "true"`). -/
def img_decorative (img : Img) : Bool :=
  img.role == "presentation" || img.role == "none" || img.aria_hidden == "true"

/-- One iteration of the `for img in images` loop of `_analyze_page`
(lines 103-139): updates the tally and appends the image's detail record. -/
def page_step (acc : PageData) (img : Img) : PageData :=
  match img.alt with
  | none =>
      { acc with
        images_missing_alt := acc.images_missing_alt + 1
        image_details := acc.image_details ++
          [{ src := str_take img.src 200, alt := none
             is_decorative := img_decorative img
             quality := "missing", issues := ["No alt attribute"] }] }
  | some a =>
      if a == "" then
        if img_decorative img then
          { acc with
            images_good_alt := acc.images_good_alt + 1
            image_details := acc.image_details ++
              [{ src := str_take img.src 200, alt := some a
                 is_decorative := img_decorative img
                 quality := "decorative_correct", issues := [] }] }
        else
          { acc with
            images_poor_alt := acc.images_poor_alt + 1
            image_details := acc.image_details ++
              [{ src := str_take img.src 200, alt := some a
                 is_decorative := img_decorative img
                 quality := "empty", issues := ["Empty alt on non-decorative image"] }] }
      else
        let qi := assess_alt_quality a img.src
        let acc := { acc with images_with_alt := acc.images_with_alt + 1 }
        if qi.fst == "good" then
          { acc with
            images_good_alt := acc.images_good_alt + 1
            image_details := acc.image_details ++
              [{ src := str_take img.src 200, alt := some a
                 is_decorative := img_decorative img
                 quality := qi.fst, issues := qi.snd }] }
        else
          { acc with
            images_poor_alt := acc.images_poor_alt + 1
            image_details := acc.image_details ++
              [{ src := str_take img.src 200, alt := some a
                 is_decorative := img_decorative img
                 quality := qi.fst, issues := qi.snd }] }

/-- `CompetitorAnalyzer._analyze_page(soup, url)` (lines 90-141), given the
`<img>` elements the parse finds on the page. -/
def analyze_page (url : String) (imgs : List Img) : PageData :=
  imgs.foldl page_step
    { url := url, total_images := imgs.length
      images_with_alt := 0, images_missing_alt := 0
      images_poor_alt := 0, images_good_alt := 0, image_details := [] }

/-! ### CompetitorAnalyzer.analyze_competitor — the bounded crawler -/

/-- What the HTTP client and BeautifulSoup yield for one URL: the response
status, the `<img>` elements and the `href` values of the `<a href=...>`
elements in document order.  `Except.error` models a raised exception
(network failure/timeout). -/
structure FetchedPage where
  status : Nat
  imgs : List Img
  links : List String
deriving Repr

/-- The network, as seen through `client.get`. -/
def Network : Type := String → Except String FetchedPage

/-- Crawl-loop state: `visited` in insertion order (the Python `set` plus
its insertion history; membership and size agree with the set since a URL
is only appended when not yet a member), the pending FIFO `to_visit`
queue, the accumulated `pages_data`, plus two instrumentation fields:
`fetch_log` records each URL passed to `client.get` in order, and
`max_queue` the largest queue length that occurred. -/
structure CrawlState where
  visited : List String
  queue : List String
  pages : List PageData
  fetch_log : List String
  max_queue : Nat

/-- Lines 50-51: a link starting with `"/"` is rebuilt as
`f"{urlparse(current_url).scheme}://{domain}{href}"` where `domain` is the
seed URL's netloc (line 23); other links are used as-is. -/
def resolve_href (domain : String) (current_url : String) (href : String) : String :=
  if str_starts_with href "/" then
    url_scheme current_url ++ "://" ++ domain ++ href
  else href

/-- Lines 48-53: the `for link in soup.find_all("a", href=True)` loop.
Each resolved link is appended when the seed domain occurs in it, it is
not yet visited, and the queue holds fewer than `max_pages * 2` entries. -/
def enqueue_links (domain : String) (max_pages : Nat) (current_url : String)
    (visited : List String) (links : List String) (queue : List String) : List String :=
  links.foldl
    (fun q href =>
      let h := resolve_href domain current_url href
      if str_contains h domain && !(visited.contains h) && q.length < max_pages * 2 then
        q ++ [h]
      else q)
    queue

/-- Lines 30-56: the `while to_visit and len(visited) < max_pages` loop.
One fuel unit is spent per iteration; the loop body pops the queue head,
skips it if visited, otherwise marks it visited, fetches it (a raised
exception or non-200 status skips the page), tallies the page and
enqueues its links. -/
def crawl_loop (net : Network) (domain : String) (max_pages : Nat) :
    Nat → CrawlState → CrawlState
  | 0, s => s
  | Nat.succ fuel, s =>
    match s.queue with
    | [] => s
    | current :: rest =>
      if max_pages ≤ s.visited.length then s
      else if s.visited.contains current then
        crawl_loop net domain max_pages fuel { s with queue := rest }
      else
        let visited := s.visited ++ [current]
        let log := s.fetch_log ++ [current]
        match net current with
        | Except.error _ =>
            crawl_loop net domain max_pages fuel
              { s with visited := visited, queue := rest, fetch_log := log }
        | Except.ok page =>
            if page.status ≠ 200 then
              crawl_loop net domain max_pages fuel
                { s with visited := visited, queue := rest, fetch_log := log }
            else
              let pd := analyze_page current page.imgs
              let q := enqueue_links domain max_pages current visited page.links rest
              crawl_loop net domain max_pages fuel
                { visited := visited, queue := q, pages := s.pages ++ [pd]
                  fetch_log := log, max_queue := max s.max_queue q.length }

/-- Fuel that exceeds any possible iteration count of the loop: every
iteration pops one queue entry, and at most `1 + max_pages * (max_pages * 2)`
entries are ever queued (one initially; each of the at most `max_pages`
fetched pages appends at most `max_pages * 2` links). -/
def crawl_fuel (max_pages : Nat) : Nat :=
  (max_pages + 1) * (2 * max_pages + 2) + 1

/-- The crawling part of `analyze_competitor` (lines 20-56): seed domain,
initial queue `[url]`, then the loop. -/
def crawl (net : Network) (url : String) (max_pages : Nat) : CrawlState :=
  crawl_loop net (url_netloc url) max_pages (crawl_fuel max_pages)
    { visited := [], queue := [url], pages := [], fetch_log := [], max_queue := 1 }

/-! ### Gap / opportunity synthesizers (lines 180-253)

The human-readable `description` / `action` / `your_opportunity` strings
are presentation text generated from the data kept here and are not
modelled. -/

/-- One record of `_identify_gaps`'s result: `percentage` is present on
the count-based gaps, `pages` on the zero-coverage gap. -/
structure Gap where
  gap_type : String
  severity : String
  count : Nat
  percentage : Option ℚ
  pages : Option (List String)

/-- One record of `_identify_opportunities`'s result. -/
structure Opportunity where
  opp_type : String
  impact : String
deriving DecidableEq, Repr

/-- `CompetitorAnalyzer._identify_gaps(pages_data)` (lines 180-220). -/
def identify_gaps (pages_data : List PageData) : List Gap :=
  let total_missing := (pages_data.map (fun p => p.images_missing_alt)).sum
  let total_poor := (pages_data.map (fun p => p.images_poor_alt)).sum
  let total_images := (pages_data.map (fun p => p.total_images)).sum
  let zero_alt_pages := pages_data.filter
    (fun p => p.images_with_alt == 0 && p.total_images > 0)
  (if total_missing > 0 then
    [{ gap_type := "missing_alt", severity := "critical", count := total_missing
       percentage := some (round1 ((total_missing : ℚ) / (max total_images 1) * 100))
       pages := none }]
   else []) ++
  (if total_poor > 0 then
    [{ gap_type := "poor_quality", severity := "major", count := total_poor
       percentage := some (round1 ((total_poor : ℚ) / (max total_images 1) * 100))
       pages := none }]
   else []) ++
  (if !zero_alt_pages.isEmpty then
    [{ gap_type := "zero_coverage_pages", severity := "critical"
       count := zero_alt_pages.length, percentage := none
       pages := some ((zero_alt_pages.map (fun p => p.url)).take 5) }]
   else [])

/-- `total_good / max(total_images, 1) * 100` (lines 225-228). -/
def good_ratio (pages_data : List PageData) : ℚ :=
  let total_images := (pages_data.map (fun p => p.total_images)).sum
  let total_good := (pages_data.map (fun p => p.images_good_alt)).sum
  (total_good : ℚ) / (max total_images 1) * 100

/-- `CompetitorAnalyzer._identify_opportunities(pages_data, domain)`
(lines 222-253).  The `domain` argument only feeds the unmodelled
description text. -/
def identify_opportunities (pages_data : List PageData) (domain : String) : List Opportunity :=
  (if good_ratio pages_data < 50 then
    [{ opp_type := "seo_advantage", impact := "high" }]
   else []) ++
  (if good_ratio pages_data < 80 then
    [{ opp_type := "accessibility_leadership", impact := "medium" }]
   else []) ++
  [{ opp_type := "image_search_ranking", impact := "high" }]

/-! ### The aggregate crawl result (lines 58-88) -/

/-- The dict `analyze_competitor` returns (without the wall-clock fields
`processing_time_ms` / `analyzed_at`). -/
structure AnalyzeResult where
  competitor_url : String
  competitor_domain : String
  pages_analyzed : Nat
  total_images : Nat
  images_with_alt : Nat
  images_missing_alt : Nat
  images_poor_alt : Nat
  images_good_alt : Nat
  compliance_score : ℚ
  gaps : List Gap
  opportunities : List Opportunity
  page_details : List PageData

/-- Line 65: `(images_with_alt / total_images * 100) if total_images > 0
else 100.0`. -/
def site_compliance_score (images_with_alt total_images : Nat) : ℚ :=
  if 0 < total_images then (images_with_alt : ℚ) / total_images * 100 else 100

/-- `CompetitorAnalyzer.analyze_competitor(url, max_pages)` (lines 20-88). -/
def analyze_competitor (net : Network) (url : String) (max_pages : Nat) : AnalyzeResult :=
  let domain := url_netloc url
  let pages_data := (crawl net url max_pages).pages
  let total_images := (pages_data.map (fun p => p.total_images)).sum
  let images_with_alt := (pages_data.map (fun p => p.images_with_alt)).sum
  { competitor_url := url
    competitor_domain := domain
    pages_analyzed := pages_data.length
    total_images := total_images
    images_with_alt := images_with_alt
    images_missing_alt := (pages_data.map (fun p => p.images_missing_alt)).sum
    images_poor_alt := (pages_data.map (fun p => p.images_poor_alt)).sum
    images_good_alt := (pages_data.map (fun p => p.images_good_alt)).sum
    compliance_score := round1 (site_compliance_score images_with_alt total_images)
    gaps := identify_gaps pages_data
    opportunities := identify_opportunities pages_data domain
    page_details := pages_data }

/-! ### compare_competitors (lines 256-318) -/

/-- One element of `competitor_results`: either the full analysis dict or
the degraded `{competitor_url, error, compliance_score: 0}` dict built
when `analyze_competitor` raised for that URL (lines 263-272). -/
inductive CompResult where
  | analyzed (r : AnalyzeResult)
  | failed (url : String) (err : String)

/-- `r.get("competitor_url", "")`. -/
def comp_url : CompResult → String
  | CompResult.analyzed r => r.competitor_url
  | CompResult.failed u _ => u

/-- `r.get("compliance_score", 0)` (the degraded dict carries 0). -/
def comp_score : CompResult → ℚ
  | CompResult.analyzed r => r.compliance_score
  | CompResult.failed _ _ => 0

/-- `r.get("total_images", 0)`. -/
def comp_total_images : CompResult → Nat
  | CompResult.analyzed r => r.total_images
  | CompResult.failed _ _ => 0

/-- `r.get("images_with_alt", 0)`. -/
def comp_images_with_alt : CompResult → Nat
  | CompResult.analyzed r => r.images_with_alt
  | CompResult.failed _ _ => 0

/-- `comp.get("competitor_domain", comp.get("competitor_url", ""))`. -/
def comp_domain_or_url : CompResult → String
  | CompResult.analyzed r => r.competitor_domain
  | CompResult.failed u _ => u

/-- `r.get("error")` — present exactly on degraded entries. -/
def comp_error : CompResult → Option String
  | CompResult.analyzed _ => none
  | CompResult.failed _ e => some e

/-- One summary row of the `comparison["competitors"]` list (lines 282-290). -/
structure CompetitorSummary where
  url : String
  compliance_score : ℚ
  total_images : Nat
  images_with_alt : Nat

/-- Stable descending insertion: the new element goes after every element
that is `≥` it, so earlier list elements precede equal later ones —
exactly `list.sort(reverse=True)`'s stable order. -/
def insert_desc (x : ℚ) : List ℚ → List ℚ
  | [] => [x]
  | y :: t => if x ≤ y then y :: insert_desc x t else x :: y :: t

/-- `all_scores.sort(reverse=True)` (line 298): stable descending sort. -/
def sort_desc (l : List ℚ) : List ℚ := l.foldl (fun acc x => insert_desc x acc) []

theorem insert_desc_perm (x : ℚ) (l : List ℚ) : List.Perm (insert_desc x l) (x :: l) := by
  induction l with
  | nil => exact List.Perm.refl _
  | cons y t ih =>
    unfold insert_desc
    split
    · exact List.Perm.trans (List.Perm.cons y ih) (List.Perm.swap x y t)
    · exact List.Perm.refl _

theorem insert_desc_sorted (x : ℚ) (l : List ℚ) (h : l.Sorted (· ≥ ·)) :
    (insert_desc x l).Sorted (· ≥ ·) := by
  induction l with
  | nil => simp [insert_desc]
  | cons y t ih =>
    rw [List.sorted_cons] at h
    unfold insert_desc
    split
    · rename_i hxy
      rw [List.sorted_cons]
      refine ⟨?_, ih h.2⟩
      intro b hb
      have hb2 := (insert_desc_perm x t).mem_iff.mp hb
      rcases List.mem_cons.mp hb2 with hb3 | hb3
      · exact hb3 ▸ hxy
      · exact h.1 b hb3
    · rename_i hxy
      have hyx : y ≤ x := le_of_lt (lt_of_not_le hxy)
      rw [List.sorted_cons]
      refine ⟨?_, List.sorted_cons.mpr h⟩
      intro b hb
      rcases List.mem_cons.mp hb with hb2 | hb2
      · exact hb2 ▸ hyx
      · exact le_trans (h.1 b hb2) hyx

theorem sort_desc_perm_aux (l acc : List ℚ) :
    List.Perm (l.foldl (fun a x => insert_desc x a) acc) (acc ++ l) := by
  induction l generalizing acc with
  | nil => simp
  | cons x t ih =>
    have h1 : (x :: t).foldl (fun a x => insert_desc x a) acc
        = t.foldl (fun a x => insert_desc x a) (insert_desc x acc) := rfl
    rw [h1]
    refine List.Perm.trans (ih (insert_desc x acc)) ?_
    refine List.Perm.trans ((insert_desc_perm x acc).append_right t) ?_
    exact (List.perm_middle).symm

/-- `sort_desc` really is a sort: it permutes its input. -/
theorem sort_desc_perm (l : List ℚ) : List.Perm (sort_desc l) l := by
  simpa using sort_desc_perm_aux l []

theorem sort_desc_sorted_aux (l acc : List ℚ) (h : acc.Sorted (· ≥ ·)) :
    (l.foldl (fun a x => insert_desc x a) acc).Sorted (· ≥ ·) := by
  induction l generalizing acc with
  | nil => simpa
  | cons x t ih => exact ih (insert_desc x acc) (insert_desc_sorted x acc h)

/-- `sort_desc` really sorts descending (non-increasing order). -/
theorem sort_desc_sorted (l : List ℚ) : (sort_desc l).Sorted (· ≥ ·) :=
  sort_desc_sorted_aux l [] (by simp)

/-- `all_scores.index(your_score)` (line 299); the score is present in
the list by construction, otherwise Python would raise (the model then
returns the length). -/
def index_of_score (x : ℚ) : List ℚ → Nat
  | [] => 0
  | y :: t => if y == x then 0 else index_of_score x t + 1

/-- The `comparison` dict (lines 275-311).  The advantage / improvement
sentences are modelled by the data they are formatted from: the
competitor's domain-or-url and the rounded score difference. -/
structure Comparison where
  your_site : CompetitorSummary
  competitors : List CompetitorSummary
  your_rank : Nat
  advantage_areas : List (String × ℚ)
  improvement_areas : List (String × ℚ)

/-- The dict `compare_competitors` returns (without `analyzed_at`). -/
structure CompareResult where
  comparison : Comparison
  your_detailed_results : AnalyzeResult
  competitor_detailed_results : List CompResult

/-- `compare_competitors(your_url, competitor_urls, max_pages_each)`
(lines 256-318).  The per-URL analysis — `analyzer.analyze_competitor`,
which may raise — is abstracted as a fallible function `analyze`; the
call on `your_url` (line 260) is unguarded, so its exception propagates,
while each competitor call is wrapped in `try/except` (lines 263-272). -/
def compare_competitors (analyze : String → Except String AnalyzeResult)
    (your_url : String) (competitor_urls : List String) : Except String CompareResult :=
  match analyze your_url with
  | Except.error e => Except.error e
  | Except.ok your_result =>
    let competitor_results := competitor_urls.map (fun comp_u =>
      match analyze comp_u with
      | Except.ok r => CompResult.analyzed r
      | Except.error e => CompResult.failed comp_u e)
    let all_scores := your_result.compliance_score :: competitor_results.map comp_score
    Except.ok
      { comparison :=
          { your_site :=
              { url := your_url
                compliance_score := your_result.compliance_score
                total_images := your_result.total_images
                images_with_alt := your_result.images_with_alt }
            competitors := competitor_results.map (fun r =>
              { url := comp_url r
                compliance_score := comp_score r
                total_images := comp_total_images r
                images_with_alt := comp_images_with_alt r })
            your_rank := index_of_score your_result.compliance_score (sort_desc all_scores) + 1
            advantage_areas :=
              (competitor_results.filter
                (fun comp => comp_score comp < your_result.compliance_score)).map
                (fun comp => (comp_domain_or_url comp,
                  round1 (your_result.compliance_score - comp_score comp)))
            improvement_areas :=
              (competitor_results.filter
                (fun comp => your_result.compliance_score < comp_score comp)).map
                (fun comp => (comp_domain_or_url comp,
                  round1 (comp_score comp - your_result.compliance_score))) }
        your_detailed_results := your_result
        competitor_detailed_results := competitor_results }

/-! ### WCAGComplianceChecker (`wcag_checker.py`)

Issue dicts are modelled through their `wcag_criterion`, `severity`,
`message` and `fix` keys; the `element`/`src` echo keys (truncated copies
of the inspected markup) are presentation context and not modelled. -/

/-- An issue dict appended by the checker. -/
structure Issue where
  wcag_criterion : String
  severity : String
  message : String
  fix : String
deriving DecidableEq, Repr

/-- A pass dict appended by the checker. -/
structure Pass where
  wcag_criterion : String
  check : String
deriving DecidableEq, Repr

/-- The extension alternatives of the filename regex in
`_check_img_element` (line 214) — this copy does include `bmp`/`tiff`. -/
def wcag_filename_exts : List (List Char) :=
  ["jpg".data, "jpeg".data, "png".data, "gif".data, "svg".data, "webp".data,
   "bmp".data, "tiff".data]

/-- `re.match(r"^[\w-]+\.(jpg|jpeg|png|gif|svg|webp|bmp|tiff)$", alt,
re.IGNORECASE)` — the checker's filename pattern, which is also the
pattern the specification text quotes. -/
def wcag_filename_match (alt : String) : Bool :=
  match split_dots (str_lower alt).data with
  | [stem, ext] => !stem.isEmpty && stem.all word_dash_char && wcag_filename_exts.contains ext
  | _ => false

/-- The generic-word list of `_check_img_element` (lines 226-227; it adds
`thumbnail` to the analyzer's list). -/
def wcag_generic_alts : List String :=
  ["image", "photo", "picture", "icon", "logo", "graphic", "banner",
   "placeholder", "untitled", "img", "pic", "thumbnail"]

/-- The redundant-prefix list of `_check_img_element` (line 240). -/
def wcag_redundant_prefix_list : List String :=
  ["image of", "picture of", "photo of", "graphic of", "icon of"]

/-- Result of `_check_img_element`. -/
structure ImgCheck where
  src : String
  alt : Option String
  is_decorative : Bool
  issues : List Issue
  passes : List Pass
  compliant : Bool
deriving DecidableEq, Repr

/-- The issue/pass accumulation of `_check_img_element` for a present,
non-empty alt string (lines 210-270), in source order. -/
def wcag_alt_checks (a : String) (longdesc : String) : List Issue × List Pass :=
  let res : List Issue × List Pass :=
    ([], [{ wcag_criterion := "1.1.1", check := "has_alt" },
          { wcag_criterion := "1.1.1", check := "alt_not_empty" }])
  let res :=
    if wcag_filename_match a then
      (res.fst ++ [{ wcag_criterion := "1.1.1", severity := "critical"
                     message := "Alt text appears to be a filename: \x27" ++ a ++ "\x27"
                     fix := "Replace filename with descriptive text about the image content" }],
       res.snd)
    else
      (res.fst, res.snd ++ [{ wcag_criterion := "1.1.1", check := "alt_not_filename" }])
  let res :=
    if wcag_generic_alts.contains (str_strip (str_lower a)) then
      (res.fst ++ [{ wcag_criterion := "1.1.1", severity := "major"
                     message := "Generic/non-descriptive alt text: \x27" ++ a ++ "\x27"
                     fix := "Replace with specific description of the image content and purpose" }],
       res.snd)
    else
      (res.fst, res.snd ++ [{ wcag_criterion := "1.1.1", check := "alt_not_generic" }])
  let res :=
    match wcag_redundant_prefix_list.find? (fun p => str_starts_with (str_lower a) p) with
    | some p =>
      (res.fst ++ [{ wcag_criterion := "1.1.1", severity := "minor"
                     message := "Alt text starts with redundant prefix: \x27" ++ p ++ "\x27"
                     fix := "Remove \x27" ++ p ++ "\x27 — screen readers already announce it as an image" }],
       res.snd)
    | none => res
  let res :=
    if a.length > 250 && longdesc == "" then
      (res.fst ++ [{ wcag_criterion := "1.1.1", severity := "minor"
                     message := "Alt text is very long (" ++ toString a.length
                       ++ " chars) — consider using longdesc"
                     fix := "For complex images, use a shorter alt and provide longdesc or aria-describedby" }],
       res.snd)
    else res
  if a == str_upper a && a.length > 5 then
    (res.fst ++ [{ wcag_criterion := "1.1.1", severity := "minor"
                   message := "Alt text is all uppercase — poor screen reader experience"
                   fix := "Use sentence case for better screen reader pronunciation" }],
     res.snd)
  else res

/-- `WCAGComplianceChecker._check_img_element(img, wcag_level)`
(lines 171-299). -/
def check_img_element (img : Img) : ImgCheck :=
  let is_decorative := img_decorative img
  let core : List Issue × List Pass :=
    match img.alt with
    | none =>
      if !is_decorative then
        ([{ wcag_criterion := "1.1.1", severity := "critical"
            message := "Image missing alt attribute entirely"
            fix := "Add alt=\"\" for decorative images or descriptive alt text for informative images" }],
         [])
      else ([], [])
    | some a =>
      if a == "" then
        if !is_decorative then
          ([{ wcag_criterion := "1.1.1", severity := "major"
              message := "Empty alt text on non-decorative image"
              fix := "Add descriptive alt text or mark as decorative with role=\x27presentation\x27" }],
           [{ wcag_criterion := "1.1.1", check := "has_alt" }])
        else ([], [{ wcag_criterion := "1.1.1", check := "has_alt" }])
      else wcag_alt_checks a img.longdesc
  let core :=
    if is_decorative && (match img.alt with | some a => a != "" | none => false) then
      (core.fst ++ [{ wcag_criterion := "1.1.1", severity := "major"
                      message := "Decorative image (role=presentation) has non-empty alt text"
                      fix := "Set alt=\"\" for decorative images" }],
       core.snd)
    else core
  let core :=
    if img.width == "" || img.height == "" then
      (core.fst ++ [{ wcag_criterion := "1.3.1", severity := "minor"
                      message := "Image missing width/height attributes — may cause layout shift"
                      fix := "Add explicit width and height attributes to prevent CLS" }],
       core.snd)
    else core
  { src := str_take img.src 200, alt := img.alt, is_decorative := is_decorative
    issues := core.fst, passes := core.snd, compliant := core.fst.isEmpty }

/-- A parsed `<svg>` element through the attributes `_check_svg_element`
reads; `has_title` models `svg.find("title") is not None`. -/
structure Svg where
  role : String
  aria_label : String
  aria_hidden : String
  has_title : Bool
deriving DecidableEq, Repr

/-- Result of `_check_svg_element` (the `type`/`has_title`/`aria_label`
echo keys and the two lists). -/
structure SvgCheck where
  has_title : Bool
  aria_label : String
  issues : List Issue
  passes : List Pass
deriving DecidableEq, Repr

/-- `WCAGComplianceChecker._check_svg_element(svg)` (lines 301-335). -/
def check_svg_element (svg : Svg) : SvgCheck :=
  let core : List Issue × List Pass :=
    if svg.aria_hidden != "true" && svg.role != "presentation" then
      let core :=
        if svg.aria_label == "" && !svg.has_title then
          ([{ wcag_criterion := "1.1.1", severity := "major"
              message := "SVG missing accessible name (no aria-label or <title>)"
              fix := "Add aria-label or a <title> element inside the SVG" }],
           ([] : List Pass))
        else ([], [{ wcag_criterion := "1.1.1", check := "svg_has_name" }])
      if svg.role != "img" then
        (core.fst ++ [{ wcag_criterion := "4.1.2", severity := "minor"
                        message := "SVG missing role=\x27img\x27 for proper screen reader announcement"
                        fix := "Add role=\x27img\x27 to the SVG element" }],
         core.snd)
      else core
    else ([], [])
  { has_title := svg.has_title, aria_label := svg.aria_label
    issues := core.fst, passes := core.snd }

/-- A parsed `<figure>`: whether `figure.find("img")` and
`figure.find("figcaption")` succeed. -/
structure Figure where
  has_img : Bool
  has_figcaption : Bool
deriving DecidableEq, Repr

/-- `WCAGComplianceChecker._check_figure_element(figure)` (lines 337-354). -/
def check_figure_element (fig : Figure) : List Issue × List Pass :=
  if fig.has_img && !fig.has_figcaption then
    ([{ wcag_criterion := "1.1.1", severity := "minor"
        message := "Figure with image missing <figcaption>"
        fix := "Add a <figcaption> to provide context for the figure" }],
     [])
  else if fig.has_figcaption then
    ([], [{ wcag_criterion := "1.1.1", check := "figure_has_caption" }])
  else ([], [])

/-- `WCAGComplianceChecker._check_input_image(inp)` (lines 356-372); the
argument is `inp.get("alt", "")`. -/
def check_input_image (alt : String) : List Issue × List Pass :=
  if alt == "" then
    ([{ wcag_criterion := "1.1.1", severity := "critical"
        message := "Image input missing alt text"
        fix := "Add alt attribute describing the button action" }],
     [])
  else ([], [{ wcag_criterion := "1.1.1", check := "input_image_has_alt" }])

/-- `WCAGComplianceChecker._check_area_element(area)` (lines 374-390); the
argument is `area.get("alt", "")`. -/
def check_area_element (alt : String) : List Issue × List Pass :=
  if alt == "" then
    ([{ wcag_criterion := "1.1.1", severity := "critical"
        message := "Image map area missing alt text"
        fix := "Add alt attribute describing the linked area" }],
     [])
  else ([], [{ wcag_criterion := "1.1.1", check := "area_has_alt" }])

/-- The parsed document `check_url` walks after a successful fetch,
through what each `soup.find_all` / `soup.find` call yields: elements as
the records above, `bg_images` the `url(...)` occurrences
`_find_background_images` extracts from `style` attributes, and the three
page-level findings `_check_page_level` reads off the tree. -/
structure ParsedDoc where
  imgs : List Img
  svgs : List Svg
  figures : List Figure
  input_image_alts : List String
  area_alts : List String
  bg_images : List String
  has_skip_link : Bool
  html_tag : Option (Option String)
  viewport_content : Option String

/-- `WCAGComplianceChecker._check_page_level(soup)` (lines 402-438):
`html_tag` is `none` when `soup.find("html")` fails, otherwise it carries
the tag's `lang` attribute (`none` when absent; an empty value is falsy
in Python and flagged the same way). -/
def check_page_level (has_skip_link : Bool) (html_tag : Option (Option String))
    (viewport_content : Option String) : List Issue :=
  (if !has_skip_link then
    [{ wcag_criterion := "2.4.1", severity := "minor"
       message := "No skip navigation link found"
       fix := "Add a skip-to-content link at the top of the page" }]
   else []) ++
  (if (match html_tag with
       | some lang => (lang.getD "") == ""
       | none => false) then
    [{ wcag_criterion := "3.1.1", severity := "major"
       message := "HTML element missing lang attribute"
       fix := "Add lang attribute to <html> element (e.g., lang=\"en\")" }]
   else []) ++
  (match viewport_content with
   | some content =>
     if str_contains content "maximum-scale=1" || str_contains content "user-scalable=no" then
       [{ wcag_criterion := "1.4.4", severity := "major"
          message := "Viewport meta prevents user scaling"
          fix := "Remove maximum-scale=1 and user-scalable=no from viewport meta" }]
     else []
   | none => [])

/-- `_generate_recommendations(issues, score)` (lines 440-475). -/
def generate_recommendations (issues : List Issue) (score : ℚ) : List String :=
  let critical_count := (issues.filter (fun i => i.severity == "critical")).length
  let major_count := (issues.filter (fun i => i.severity == "major")).length
  let criteria_seen := issues.map (fun i => i.wcag_criterion)
  (if critical_count > 0 then
    ["URGENT: Fix " ++ toString critical_count
      ++ " critical issues first — these are WCAG Level A failures"]
   else []) ++
  (if major_count > 0 then
    ["HIGH PRIORITY: Address " ++ toString major_count
      ++ " major issues for WCAG AA compliance"]
   else []) ++
  (if score < 50 then
    ["Consider a full accessibility audit — significant compliance gaps detected"]
   else []) ++
  (if 90 ≤ score then
    ["Strong accessibility foundation — focus on minor refinements for AAA compliance"]
   else []) ++
  (if criteria_seen.contains "1.1.1" then
    ["Review all images for meaningful alt text — this is the most common accessibility failure"]
   else []) ++
  (if criteria_seen.contains "4.1.2" then
    ["Ensure all interactive elements have proper ARIA labels and roles"]
   else [])

/-- The success report of `check_url` (lines 143-169), without the
wall-clock fields.  `image_results` keeps the `<img>` entries and
`svg_results` the `<svg>` entries of the Python `image_results` list
(the Python list interleaves the two dict shapes in that order). -/
structure CheckReport where
  url : String
  wcag_level : String
  compliance_score : ℚ
  status : String
  total_images : Nat
  total_svgs : Nat
  total_background_images : Nat
  total_figures : Nat
  total_checks_performed : Nat
  total_passes : Nat
  total_issues : Nat
  critical_issues : Nat
  major_issues : Nat
  minor_issues : Nat
  image_results : List ImgCheck
  svg_results : List SvgCheck
  page_level_issues : List Issue
  recommendations : List String

/-- The early-return error dict of `check_url` (lines 73-79). -/
structure CheckError where
  url : String
  error : String
  compliance_score : ℚ
  status : String
deriving Repr

/-- `check_url` returns one of two dict shapes. -/
inductive CheckResult where
  | failure (e : CheckError)
  | report (r : CheckReport)

/-- `WCAGComplianceChecker.check_url(url, wcag_level)` (lines 63-169);
`fetched` is what the guarded `client.get(url)` + parse produced:
`Except.error e` when the fetch raised `e`. -/
def check_url (url : String) (wcag_level : String)
    (fetched : Except String ParsedDoc) : CheckResult :=
  match fetched with
  | Except.error e =>
      CheckResult.failure
        { url := url, error := e, compliance_score := 0, status := "error" }
  | Except.ok doc =>
      let image_results := doc.imgs.map check_img_element
      let svg_results := doc.svgs.map check_svg_element
      let fig_results := doc.figures.map check_figure_element
      let input_results := doc.input_image_alts.map check_input_image
      let area_results := doc.area_alts.map check_area_element
      let page_issues := check_page_level doc.has_skip_link
        doc.html_tag doc.viewport_content
      let all_issues :=
        (image_results.map (fun r => r.issues)).flatten ++
        (svg_results.map (fun r => r.issues)).flatten ++
        (fig_results.map (fun r => r.fst)).flatten ++
        (input_results.map (fun r => r.fst)).flatten ++
        (area_results.map (fun r => r.fst)).flatten ++
        page_issues
      let all_passes :=
        (image_results.map (fun r => r.passes)).flatten ++
        (svg_results.map (fun r => r.passes)).flatten ++
        (fig_results.map (fun r => r.snd)).flatten ++
        (input_results.map (fun r => r.snd)).flatten ++
        (area_results.map (fun r => r.snd)).flatten
      let total_checks := all_issues.length + all_passes.length
      let compliance_score : ℚ :=
        if 0 < total_checks then (all_passes.length : ℚ) / total_checks * 100 else 100
      CheckResult.report
        { url := url, wcag_level := wcag_level
          compliance_score := round1 compliance_score
          status := if 95 ≤ compliance_score then "compliant"
            else if 70 ≤ compliance_score then "partial" else "non_compliant"
          total_images := doc.imgs.length
          total_svgs := doc.svgs.length
          total_background_images := doc.bg_images.length
          total_figures := doc.figures.length
          total_checks_performed := total_checks
          total_passes := all_passes.length
          total_issues := all_issues.length
          critical_issues := (all_issues.filter (fun i => i.severity == "critical")).length
          major_issues := (all_issues.filter (fun i => i.severity == "major")).length
          minor_issues := (all_issues.filter (fun i => i.severity == "minor")).length
          image_results := image_results
          svg_results := svg_results
          page_level_issues := page_issues
          recommendations := generate_recommendations all_issues compliance_score }

/-! ### Helper lemmas: the per-page tally -/

theorem page_step_partition (acc : PageData) (img : Img) :
    (page_step acc img).images_missing_alt + (page_step acc img).images_poor_alt
        + (page_step acc img).images_good_alt
      = acc.images_missing_alt + acc.images_poor_alt + acc.images_good_alt + 1 := by
  unfold page_step
  cases img.alt with
  | none => dsimp only; omega
  | some a =>
    dsimp only
    split
    · split <;> (dsimp only; omega)
    · split <;> (dsimp only; omega)

theorem page_step_with_alt (acc : PageData) (img : Img) :
    (page_step acc img).images_with_alt ≤ acc.images_with_alt + 1 := by
  unfold page_step
  cases img.alt with
  | none => dsimp only; omega
  | some a =>
    dsimp only
    split
    · split <;> (dsimp only; omega)
    · split <;> (dsimp only; omega)

theorem page_step_total (acc : PageData) (img : Img) :
    (page_step acc img).total_images = acc.total_images := by
  unfold page_step
  cases img.alt with
  | none => rfl
  | some a =>
    dsimp only
    split
    · split <;> rfl
    · split <;> rfl

theorem page_step_counts (acc : PageData) (img : Img) :
    (page_step acc img).images_missing_alt + (page_step acc img).images_poor_alt
        + (page_step acc img).images_good_alt
      = acc.images_missing_alt + acc.images_poor_alt + acc.images_good_alt + 1
    ∧ (page_step acc img).images_with_alt ≤ acc.images_with_alt + 1
    ∧ (page_step acc img).total_images = acc.total_images :=
  ⟨page_step_partition acc img, page_step_with_alt acc img, page_step_total acc img⟩

theorem foldl_page_step_counts (imgs : List Img) (acc : PageData) :
    (imgs.foldl page_step acc).images_missing_alt + (imgs.foldl page_step acc).images_poor_alt
        + (imgs.foldl page_step acc).images_good_alt
      = acc.images_missing_alt + acc.images_poor_alt + acc.images_good_alt + imgs.length
    ∧ (imgs.foldl page_step acc).images_with_alt ≤ acc.images_with_alt + imgs.length
    ∧ (imgs.foldl page_step acc).total_images = acc.total_images := by
  induction imgs generalizing acc with
  | nil => simp
  | cons i is ih =>
    have hstep := page_step_counts acc i
    have hrest := ih (page_step acc i)
    simp only [List.foldl_cons, List.length_cons]
    refine ⟨?_, ?_, ?_⟩
    · omega
    · omega
    · rw [hrest.2.2, hstep.2.2]

/-- The tier buckets partition the images of a page. -/
theorem analyze_page_partition (url : String) (imgs : List Img) :
    (analyze_page url imgs).images_missing_alt + (analyze_page url imgs).images_poor_alt
        + (analyze_page url imgs).images_good_alt
      = (analyze_page url imgs).total_images := by
  have h := foldl_page_step_counts imgs
    { url := url, total_images := imgs.length
      images_with_alt := 0, images_missing_alt := 0
      images_poor_alt := 0, images_good_alt := 0, image_details := [] }
  have ht := h.2.2
  unfold analyze_page
  rw [h.1, ht]
  simp

theorem analyze_page_with_alt_le (url : String) (imgs : List Img) :
    (analyze_page url imgs).images_with_alt ≤ (analyze_page url imgs).total_images := by
  have h := foldl_page_step_counts imgs
    { url := url, total_images := imgs.length
      images_with_alt := 0, images_missing_alt := 0
      images_poor_alt := 0, images_good_alt := 0, image_details := [] }
  unfold analyze_page
  rw [h.2.2]
  simpa using h.2.1

/-! ### Helper lemmas: the crawl loop -/

theorem nodup_append_single {l : List String} {a : String}
    (h1 : l.Nodup) (h2 : a ∉ l) : (l ++ [a]).Nodup := by
  simp [List.nodup_append, h1, h2]

theorem enqueue_links_length (domain : String) (mp : Nat) (cu : String)
    (visited : List String) (links : List String) (queue : List String)
    (h : queue.length ≤ max 1 (mp * 2)) :
    (enqueue_links domain mp cu visited links queue).length ≤ max 1 (mp * 2) := by
  induction links generalizing queue with
  | nil => simpa [enqueue_links] using h
  | cons l ls ih =>
    simp only [enqueue_links, List.foldl_cons] at ih ⊢
    apply ih
    dsimp only
    split
    · rename_i hc
      simp only [Bool.and_eq_true, decide_eq_true_eq] at hc
      simp only [List.length_append, List.length_singleton]
      omega
    · exact h

theorem crawl_loop_inv (net : Network) (domain : String) (mp : Nat) (fuel : Nat)
    (s : CrawlState)
    (hv : s.visited.Nodup)
    (hl : s.fetch_log.Nodup)
    (hsub : ∀ u ∈ s.fetch_log, u ∈ s.visited)
    (hlen : s.visited.length ≤ mp)
    (hq : s.queue.length ≤ max 1 (mp * 2))
    (hmq : s.max_queue ≤ max 1 (mp * 2))
    (hp : ∀ p ∈ s.pages, p.images_with_alt ≤ p.total_images) :
    (crawl_loop net domain mp fuel s).visited.Nodup
    ∧ (crawl_loop net domain mp fuel s).fetch_log.Nodup
    ∧ (∀ u ∈ (crawl_loop net domain mp fuel s).fetch_log,
        u ∈ (crawl_loop net domain mp fuel s).visited)
    ∧ (crawl_loop net domain mp fuel s).visited.length ≤ mp
    ∧ (crawl_loop net domain mp fuel s).max_queue ≤ max 1 (mp * 2)
    ∧ ∀ p ∈ (crawl_loop net domain mp fuel s).pages,
        p.images_with_alt ≤ p.total_images := by
  induction fuel generalizing s with
  | zero => exact ⟨hv, hl, hsub, hlen, hmq, hp⟩
  | succ fuel ih =>
    cases hqueue : s.queue with
    | nil =>
      simp only [crawl_loop, hqueue]
      exact ⟨hv, hl, hsub, hlen, hmq, hp⟩
    | cons current rest =>
      have hrest : rest.length ≤ max 1 (mp * 2) := by
        rw [hqueue] at hq
        simp only [List.length_cons] at hq
        omega
      simp only [crawl_loop, hqueue]
      by_cases hguard : mp ≤ s.visited.length
      · rw [if_pos hguard]
        exact ⟨hv, hl, hsub, hlen, hmq, hp⟩
      · rw [if_neg hguard]
        by_cases hmem : s.visited.contains current = true
        · rw [if_pos hmem]
          exact ih { s with queue := rest } hv hl hsub hlen hrest hmq hp
        · rw [if_neg hmem]
          have hnotmem : current ∉ s.visited := by
            intro hin
            exact hmem (List.elem_eq_true_of_mem hin)
          have hv2 : (s.visited ++ [current]).Nodup := nodup_append_single hv hnotmem
          have hl2 : (s.fetch_log ++ [current]).Nodup := by
            refine nodup_append_single hl ?_
            intro hin
            exact hnotmem (hsub current hin)
          have hsub2 : ∀ u ∈ s.fetch_log ++ [current], u ∈ s.visited ++ [current] := by
            intro u hu
            rcases List.mem_append.mp hu with h1 | h1
            · exact List.mem_append.mpr (Or.inl (hsub u h1))
            · exact List.mem_append.mpr (Or.inr h1)
          have hlen2 : (s.visited ++ [current]).length ≤ mp := by
            simp only [List.length_append, List.length_singleton]
            omega
          cases hnet : net current with
          | error e =>
            exact ih _ hv2 hl2 hsub2 hlen2 hrest hmq hp
          | ok page =>
            dsimp only
            by_cases hst : page.status ≠ 200
            · rw [if_pos hst]
              exact ih _ hv2 hl2 hsub2 hlen2 hrest hmq hp
            · rw [if_neg hst]
              have hq2 := enqueue_links_length domain mp current
                (s.visited ++ [current]) page.links rest hrest
              have hmq2 : max s.max_queue
                  (enqueue_links domain mp current (s.visited ++ [current])
                    page.links rest).length ≤ max 1 (mp * 2) :=
                max_le hmq hq2
              have hp2 : ∀ p ∈ s.pages ++ [analyze_page current page.imgs],
                  p.images_with_alt ≤ p.total_images := by
                intro p hpin
                rcases List.mem_append.mp hpin with h1 | h1
                · exact hp p h1
                · rw [List.mem_singleton.mp h1]
                  exact analyze_page_with_alt_le current page.imgs
              exact ih _ hv2 hl2 hsub2 hlen2 hq2 hmq2 hp2

/-- The crawl invariants at the top-level entry point. -/
theorem crawl_inv (net : Network) (url : String) (max_pages : Nat) :
    (crawl net url max_pages).visited.Nodup
    ∧ (crawl net url max_pages).fetch_log.Nodup
    ∧ (∀ u ∈ (crawl net url max_pages).fetch_log, u ∈ (crawl net url max_pages).visited)
    ∧ (crawl net url max_pages).visited.length ≤ max_pages
    ∧ (crawl net url max_pages).max_queue ≤ max 1 (max_pages * 2)
    ∧ ∀ p ∈ (crawl net url max_pages).pages, p.images_with_alt ≤ p.total_images := by
  refine crawl_loop_inv net (url_netloc url) max_pages (crawl_fuel max_pages) _
    (by simp) (by simp) (by simp) (by simp) ?_ ?_ (by simp)
  · simp
  · simp

/-! ### Fuel adequacy: the model runs the Python loop to completion

Python's loop terminates because each iteration pops one queue entry and
the number of entries ever queued is bounded.  The potential below is an
upper bound on the remaining iteration count; it strictly decreases each
iteration, so `crawl_fuel` fuel (which dominates the initial potential)
always drives the loop to one of its two exit conditions — empty queue or
page cap reached — exactly as in Python. -/

/-- Upper bound on the remaining iterations: current queue length plus,
for every page the loop may still visit, the cap on links it can add. -/
def crawl_potential (mp : Nat) (s : CrawlState) : Nat :=
  s.queue.length + (mp - s.visited.length) * (2 * mp + 1)

theorem enqueue_links_length_max (domain : String) (mp : Nat) (cu : String)
    (visited : List String) (links : List String) (queue : List String) :
    (enqueue_links domain mp cu visited links queue).length
      ≤ max queue.length (mp * 2) := by
  induction links generalizing queue with
  | nil => simp [enqueue_links]
  | cons l ls ih =>
    simp only [enqueue_links, List.foldl_cons] at ih ⊢
    refine le_trans (ih _) ?_
    dsimp only
    split
    · rename_i hc
      simp only [Bool.and_eq_true, decide_eq_true_eq] at hc
      simp only [List.length_append, List.length_singleton]
      omega
    · omega

theorem crawl_loop_adequate (net : Network) (domain : String) (mp : Nat) :
    ∀ (fuel : Nat) (s : CrawlState), crawl_potential mp s ≤ fuel →
      (crawl_loop net domain mp fuel s).queue = []
      ∨ mp ≤ (crawl_loop net domain mp fuel s).visited.length := by
  intro fuel
  induction fuel with
  | zero =>
    intro s hs
    left
    unfold crawl_potential at hs
    simp only [crawl_loop]
    exact List.length_eq_zero.mp (by omega)
  | succ fuel ih =>
    intro s hs
    cases hq : s.queue with
    | nil =>
      simp [crawl_loop, hq]
    | cons current rest =>
      have hΦ : rest.length + 1 + (mp - s.visited.length) * (2 * mp + 1) ≤ fuel + 1 := by
        unfold crawl_potential at hs
        rw [hq] at hs
        simpa [List.length_cons] using hs
      simp only [crawl_loop, hq]
      by_cases hguard : mp ≤ s.visited.length
      · rw [if_pos hguard]
        right
        exact hguard
      · rw [if_neg hguard]
        have hvm : s.visited.length < mp := lt_of_not_le hguard
        have hmul : (mp - s.visited.length) * (2 * mp + 1)
            = (mp - (s.visited.length + 1)) * (2 * mp + 1) + (2 * mp + 1) := by
          have hsplit : mp - s.visited.length = (mp - (s.visited.length + 1)) + 1 := by omega
          rw [hsplit, add_mul, one_mul]
        by_cases hmem : s.visited.contains current = true
        · rw [if_pos hmem]
          apply ih
          unfold crawl_potential
          dsimp only
          omega
        · rw [if_neg hmem]
          cases hnet : net current with
          | error e =>
            apply ih
            unfold crawl_potential
            dsimp only
            simp only [List.length_append, List.length_singleton]
            omega
          | ok page =>
            dsimp only
            by_cases hst : page.status ≠ 200
            · rw [if_pos hst]
              apply ih
              unfold crawl_potential
              dsimp only
              simp only [List.length_append, List.length_singleton]
              omega
            · rw [if_neg hst]
              apply ih
              have hql := enqueue_links_length_max domain mp current
                (s.visited ++ [current]) page.links rest
              unfold crawl_potential
              dsimp only
              simp only [List.length_append, List.length_singleton]
              omega

/-- With the fuel `crawl` supplies, the loop always stops at one of the
two Python exit conditions, so the model computes the complete run. -/
theorem crawl_reaches_loop_exit (net : Network) (url : String) (max_pages : Nat) :
    (crawl net url max_pages).queue = []
    ∨ max_pages ≤ (crawl net url max_pages).visited.length := by
  apply crawl_loop_adequate
  unfold crawl_potential crawl_fuel
  simp only [List.length_cons, List.length_nil, Nat.sub_zero]
  nlinarith [sq_nonneg max_pages]

/-! ### Helper lemmas: the site compliance score -/

theorem site_compliance_score_bounds (w t : Nat) (h : w ≤ t) :
    0 ≤ site_compliance_score w t ∧ site_compliance_score w t ≤ 100 := by
  unfold site_compliance_score
  split
  · rename_i ht
    constructor
    · positivity
    · have ht0 : (0 : ℚ) < t := by exact_mod_cast ht
      rw [div_mul_eq_mul_div, div_le_iff₀ ht0]
      have hwt : (w : ℚ) ≤ t := by exact_mod_cast h
      nlinarith
  · norm_num

theorem round1_third : round1 ((1 : ℚ) / 3 * 100) = 333 / 10 := by
  have h0 : ((1 : ℚ) / 3 * 100) * 10 = 1000 / 3 := by norm_num
  have hfl : ⌊(1000 : ℚ) / 3⌋ = 333 := by
    rw [Int.floor_eq_iff]
    norm_num
  unfold round1 round_half_even
  rw [h0, hfl]
  rw [if_pos (by norm_num)]
  norm_num

/-! ### Concrete fixtures for the claim theorems -/

/-- A page carrying three images of which exactly one has (good) alt text. -/
def ex_page_thirds : FetchedPage :=
  { status := 200
    imgs := [mk_img "dog.jpg" (some "Golden retriever catching a red frisbee") "" ""
            , mk_img "b.jpg" none "" ""
            , mk_img "c.jpg" none "" ""]
    links := [] }

/-- A network serving `ex_page_thirds` at the seed URL. -/
def ex_net_thirds : Network := fun u =>
  if u = "http://a.com/" then Except.ok ex_page_thirds else Except.error "connection refused"

/-- A network where every fetch raises. -/
def ex_net_fail : Network := fun _ => Except.error "connection refused"

/-- A page with three same-domain relative links and no images. -/
def ex_net_links : Network := fun u =>
  if u = "http://a.com/" then
    Except.ok { status := 200, imgs := [], links := ["/x", "/y", "/z"] }
  else Except.error "connection refused"

/-- A seed page on `a.com` linking to `xa.com` (whose host contains the
string `"a.com"`, so the crawler follows it); the `xa.com` page carries
the relative link `"/q"`. -/
def ex_net_cross : Network := fun u =>
  if u = "http://a.com/" then
    Except.ok { status := 200, imgs := [], links := ["http://xa.com/p"] }
  else if u = "http://xa.com/p" then
    Except.ok { status := 200, imgs := [], links := ["/q"] }
  else if u = "http://a.com/q" then
    Except.ok { status := 200, imgs := [], links := [] }
  else Except.error "connection refused"

/-- A decorative image (`role="presentation"`) with no alt attribute. -/
def decor_img_no_alt : Img := mk_img "spacer.gif" none "presentation" ""

/-- An analysis result summarised by compliance score 90. -/
def ex_your : AnalyzeResult :=
  { competitor_url := "https://you.example/", competitor_domain := "you.example"
    pages_analyzed := 0, total_images := 0, images_with_alt := 0
    images_missing_alt := 0, images_poor_alt := 0, images_good_alt := 0
    compliance_score := 90, gaps := [], opportunities := [], page_details := [] }

/-- An analysis result summarised by compliance score 80. -/
def ex_comp80 : AnalyzeResult :=
  { competitor_url := "https://c1.example/", competitor_domain := "c1.example"
    pages_analyzed := 0, total_images := 0, images_with_alt := 0
    images_missing_alt := 0, images_poor_alt := 0, images_good_alt := 0
    compliance_score := 80, gaps := [], opportunities := [], page_details := [] }

/-- An analysis result summarised by compliance score 95. -/
def ex_comp95 : AnalyzeResult :=
  { competitor_url := "https://c2.example/", competitor_domain := "c2.example"
    pages_analyzed := 0, total_images := 0, images_with_alt := 0
    images_missing_alt := 0, images_poor_alt := 0, images_good_alt := 0
    compliance_score := 95, gaps := [], opportunities := [], page_details := [] }

/-- A per-URL analysis function: your site scores 90, the competitors 80
and 95. -/
def ex_rank_analyze : String → Except String AnalyzeResult := fun u =>
  if u = "https://you.example/" then Except.ok ex_your
  else if u = "https://c1.example/" then Except.ok ex_comp80
  else if u = "https://c2.example/" then Except.ok ex_comp95
  else Except.error "unknown"

/-- A per-URL analysis function where the second competitor raises. -/
def ex_fail_analyze : String → Except String AnalyzeResult := fun u =>
  if u = "https://you.example/" then Except.ok ex_your
  else if u = "https://c1.example/" then Except.ok ex_comp80
  else Except.error "timeout"

/-- Aggregated page data with 1 good image out of 2 (good ratio exactly 50). -/
def ex_pd_half : List PageData :=
  [{ url := "https://c.example/", total_images := 2, images_with_alt := 2
     images_missing_alt := 0, images_poor_alt := 1, images_good_alt := 1
     image_details := [] }]

/-- Aggregated page data with 499 good images out of 1000 (good ratio 49.9). -/
def ex_pd_499 : List PageData :=
  [{ url := "https://c.example/", total_images := 1000, images_with_alt := 1000
     images_missing_alt := 0, images_poor_alt := 501, images_good_alt := 499
     image_details := [] }]

/-! ### Claim theorems -/

/-- C10: `_assess_alt_quality` is a pure function of the alt string alone:
calls with the same alt text and different `src` arguments return the
identical (tier, issues) pair — the `src` parameter has no influence. -/
theorem c10_assess_depends_only_on_alt (alt src1 src2 : String) :
    assess_alt_quality alt src1 = assess_alt_quality alt src2 := rfl

/-- C4 counterexample: the specification's filename pattern (the one in
`wcag_checker.py` line 214) accepts `"photo.bmp"`, but
`_assess_alt_quality`'s own pattern (line 148, without `bmp|tiff`) does
not, so the assessor returns tier `"acceptable"` with a too-short issue
instead of the claimed `"poor"`/filename result. -/
theorem c4_bmp_counterexample :
    wcag_filename_match "photo.bmp" = true
    ∧ is_filename_alt "photo.bmp" = false
    ∧ assess_alt_quality "photo.bmp" "photo.bmp"
        = ("acceptable", ["Too short — may not be descriptive enough"]) := by
  refine ⟨by decide, by decide, by decide⟩

/-- C4 (amended): for every non-empty alt string matching
`_assess_alt_quality`'s filename pattern `^[\w-]+\.(jpg|jpeg|png|gif|svg|webp)$`
(case-insensitive, without the `bmp|tiff` alternatives that only the WCAG
checker's copy has), the assessor returns tier `"poor"` with exactly the
filename issue, short-circuiting every remaining check. -/
theorem c4_filename_short_circuit (alt src : String)
    (h : is_filename_alt alt = true) :
    assess_alt_quality alt src = ("poor", ["Alt text is a filename"]) := by
  unfold assess_alt_quality
  rw [if_pos h]

/-- C4 witness: the amended theorem applied at `"photo.jpg"`. -/
theorem c4_filename_short_circuit_witness :
    is_filename_alt "photo.jpg" = true
    ∧ assess_alt_quality "photo.jpg" "x.jpg" = ("poor", ["Alt text is a filename"]) :=
  ⟨by decide, c4_filename_short_circuit "photo.jpg" "x.jpg" (by decide)⟩

/-- C6: in every page report produced by `_analyze_page`, the tier buckets
partition the images: `images_missing_alt + images_poor_alt +
images_good_alt = total_images`. -/
theorem c6_tier_partition (url : String) (imgs : List Img) :
    (analyze_page url imgs).images_missing_alt + (analyze_page url imgs).images_poor_alt
        + (analyze_page url imgs).images_good_alt
      = (analyze_page url imgs).total_images :=
  analyze_page_partition url imgs

/-- C5 counterexample: a decorative image (`role="presentation"`) with no
alt attribute is still assigned tier `"missing"` with the
"No alt attribute" issue by `_analyze_page`, contradicting the claim's
"unless the element is marked decorative" exemption. -/
theorem c5_decorative_missing_counterexample :
    img_decorative decor_img_no_alt = true
    ∧ (analyze_page "https://x.example/" [decor_img_no_alt]).image_details
        = [{ src := "spacer.gif", alt := none, is_decorative := true
             quality := "missing", issues := ["No alt attribute"] }]
    ∧ (analyze_page "https://x.example/" [decor_img_no_alt]).images_missing_alt = 1 := by
  refine ⟨by decide, by decide, by decide⟩

/-- C5 (amended): an image with no alt attribute is tier `"missing"` with
the "No alt attribute" issue in `_analyze_page` regardless of decorative
marking; only `WCAGComplianceChecker._check_img_element` has the
decorative exemption — there, a non-decorative image with no alt gets the
critical missing-alt issue first, while a decorative one never gets it. -/
theorem c5_missing_alt_handling :
    (∀ (acc : PageData) (img : Img), img.alt = none →
      page_step acc img =
        { acc with
          images_missing_alt := acc.images_missing_alt + 1
          image_details := acc.image_details ++
            [{ src := str_take img.src 200, alt := none
               is_decorative := img_decorative img
               quality := "missing", issues := ["No alt attribute"] }] })
    ∧ (∀ img : Img, img.alt = none → img_decorative img = false →
        (check_img_element img).issues.head? = some
          { wcag_criterion := "1.1.1", severity := "critical"
            message := "Image missing alt attribute entirely"
            fix := "Add alt=\"\" for decorative images or descriptive alt text for informative images" })
    ∧ (∀ img : Img, img.alt = none → img_decorative img = true →
        ∀ i ∈ (check_img_element img).issues,
          i.message ≠ "Image missing alt attribute entirely") := by
  refine ⟨?_, ?_, ?_⟩
  · intro acc img halt
    simp [page_step, halt]
  · intro img halt hdec
    simp only [check_img_element, halt, hdec, Bool.not_false]
    split <;> rfl
  · intro img halt hdec
    simp only [check_img_element, halt, hdec, Bool.not_true]
    split <;> simp

/-- C5 witness: the amended theorem applied to concrete decorative and
non-decorative images without alt attributes. -/
theorem c5_missing_alt_handling_witness :
    (check_img_element (mk_img "hero.png" none "" "")).issues.head? = some
      { wcag_criterion := "1.1.1", severity := "critical"
        message := "Image missing alt attribute entirely"
        fix := "Add alt=\"\" for decorative images or descriptive alt text for informative images" }
    ∧ ∀ i ∈ (check_img_element decor_img_no_alt).issues,
        i.message ≠ "Image missing alt attribute entirely" :=
  ⟨c5_missing_alt_handling.2.1 (mk_img "hero.png" none "" "") rfl rfl,
   c5_missing_alt_handling.2.2 decor_img_no_alt rfl rfl⟩

/-- C2 counterexample: with `max_pages = 1` and a seed page carrying three
same-domain links, the pending queue grows to exactly `max_pages * 2 = 2`
entries (the guard `len(to_visit) < max_pages * 2` is checked before the
append), so the queue does reach `max_pages * 2` entries. -/
theorem c2_queue_reaches_cap_counterexample :
    (crawl ex_net_links "http://a.com/" 1).max_queue = 1 * 2
    ∧ ¬ (crawl ex_net_links "http://a.com/" 1).max_queue < 1 * 2 := by
  refine ⟨by decide, by decide⟩

/-- C2 (amended): within one invocation no URL is fetched twice, at most
`max_pages` distinct URLs are visited, and the pending queue never
exceeds `max (1) (max_pages * 2)` entries — it can reach exactly
`max_pages * 2` (and the initial one-element queue dominates when
`max_pages = 0`). -/
theorem c2_crawler_bounds (net : Network) (url : String) (max_pages : Nat) :
    (crawl net url max_pages).fetch_log.Nodup
    ∧ (crawl net url max_pages).visited.Nodup
    ∧ (crawl net url max_pages).visited.length ≤ max_pages
    ∧ (crawl net url max_pages).max_queue ≤ max 1 (max_pages * 2) := by
  obtain ⟨h1, h2, h3, h4, h5, h6⟩ := crawl_inv net url max_pages
  exact ⟨h2, h1, h4, h5⟩

/-- Modelled from the spec's words (§4.3): "Relative links (`/...`) are
resolved against the crawled page's scheme+domain, not the seed's". -/
def resolve_href_spec (current_url : String) (href : String) : String :=
  if str_starts_with href "/" then
    url_scheme current_url ++ "://" ++ url_netloc current_url ++ href
  else href

/-- C3 counterexample: the crawler reaches `http://xa.com/p` (the host
`xa.com` contains the seed-domain string `a.com`), and the relative link
`"/q"` found there is resolved with the *seed's* domain to
`http://a.com/q` — which gets crawled — while the spec's resolution
`http://xa.com/q` (crawled page's domain) never appears. -/
theorem c3_seed_domain_counterexample :
    resolve_href "a.com" "http://xa.com/p" "/q" = "http://a.com/q"
    ∧ resolve_href_spec "http://xa.com/p" "/q" = "http://xa.com/q"
    ∧ "http://xa.com/p" ∈ (crawl ex_net_cross "http://a.com/" 3).visited
    ∧ "http://a.com/q" ∈ (crawl ex_net_cross "http://a.com/" 3).visited
    ∧ "http://xa.com/q" ∉ (crawl ex_net_cross "http://a.com/" 3).visited
    ∧ (crawl ex_net_cross "http://a.com/" 3).queue = [] := by
  refine ⟨by decide, by decide, by decide, by decide, by decide, by decide⟩

/-- C3 (amended): a relative link (href starting with `"/"`) discovered on
a crawled page is resolved against the crawled page's *scheme* but the
*seed URL's* domain (`domain = urlparse(url).netloc`, line 23, used at
line 51), which `crawl` passes to the loop. -/
theorem c3_relative_links_use_seed_domain (url current_url href : String)
    (h : str_starts_with href "/" = true) :
    resolve_href (url_netloc url) current_url href
      = url_scheme current_url ++ "://" ++ url_netloc url ++ href
    ∧ ∀ (net : Network) (max_pages : Nat),
        crawl net url max_pages
          = crawl_loop net (url_netloc url) max_pages (crawl_fuel max_pages)
              { visited := [], queue := [url], pages := [], fetch_log := []
                max_queue := 1 } := by
  constructor
  · unfold resolve_href
    rw [if_pos h]
  · intro net max_pages
    rfl

/-- C3 witness: the amended theorem applied to the cross-domain fixture. -/
theorem c3_relative_links_use_seed_domain_witness :
    resolve_href (url_netloc "http://a.com/") "http://xa.com/p" "/q"
      = url_scheme "http://xa.com/p" ++ "://" ++ url_netloc "http://a.com/" ++ "/q" :=
  (c3_relative_links_use_seed_domain "http://a.com/" "http://xa.com/p" "/q" (by decide)).1

/-- C1 counterexample: a crawl finding 3 images of which 1 has alt text
reports `compliance_score = 33.3` (the code rounds to one decimal at
line 82), not `images_with_alt / total_images * 100 = 100/3`. -/
theorem c1_rounding_counterexample :
    (analyze_competitor ex_net_thirds "http://a.com/" 1).total_images = 3
    ∧ (analyze_competitor ex_net_thirds "http://a.com/" 1).images_with_alt = 1
    ∧ (analyze_competitor ex_net_thirds "http://a.com/" 1).compliance_score = 333 / 10
    ∧ (analyze_competitor ex_net_thirds "http://a.com/" 1).compliance_score
        ≠ ((analyze_competitor ex_net_thirds "http://a.com/" 1).images_with_alt : ℚ)
            / (analyze_competitor ex_net_thirds "http://a.com/" 1).total_images * 100 := by
  have ht : (analyze_competitor ex_net_thirds "http://a.com/" 1).total_images = 3 := by decide
  have hw : (analyze_competitor ex_net_thirds "http://a.com/" 1).images_with_alt = 1 := by decide
  have hs : (analyze_competitor ex_net_thirds "http://a.com/" 1).compliance_score
      = round1 (site_compliance_score 1 3) := rfl
  have hv : site_compliance_score 1 3 = (1 : ℚ) / 3 * 100 := by
    unfold site_compliance_score
    rw [if_pos (by norm_num)]
    norm_num
  refine ⟨ht, hw, ?_, ?_⟩
  · rw [hs, hv, round1_third]
  · rw [hs, hv, round1_third, hw, ht]
    norm_num

/-- C1 (amended): the `compliance_score` field of every crawl result is
`round(images_with_alt / total_images * 100, 1)` when `total_images > 0`
and `100.0` when `total_images == 0` (`site_compliance_score` is exactly
the line-65 expression, `round1` the line-82 rounding), and it always
lies in the closed interval `[0, 100]`. -/
theorem c1_compliance_score_bounds (net : Network) (url : String) (max_pages : Nat) :
    (analyze_competitor net url max_pages).compliance_score
      = round1 (site_compliance_score
          (analyze_competitor net url max_pages).images_with_alt
          (analyze_competitor net url max_pages).total_images)
    ∧ 0 ≤ (analyze_competitor net url max_pages).compliance_score
    ∧ (analyze_competitor net url max_pages).compliance_score ≤ 100
    ∧ ((analyze_competitor net url max_pages).total_images = 0 →
        (analyze_competitor net url max_pages).compliance_score = 100) := by
  obtain ⟨-, -, -, -, -, hpages⟩ := crawl_inv net url max_pages
  have hwt : (analyze_competitor net url max_pages).images_with_alt
      ≤ (analyze_competitor net url max_pages).total_images := by
    show ((crawl net url max_pages).pages.map (fun p => p.images_with_alt)).sum
      ≤ ((crawl net url max_pages).pages.map (fun p => p.total_images)).sum
    exact List.sum_le_sum hpages
  have hb := site_compliance_score_bounds _ _ hwt
  refine ⟨rfl, ?_, ?_, ?_⟩
  · exact round1_nonneg hb.1
  · exact round1_le_100 hb.2
  · intro h0
    have h1 : site_compliance_score
        (analyze_competitor net url max_pages).images_with_alt
        (analyze_competitor net url max_pages).total_images = 100 := by
      unfold site_compliance_score
      rw [h0]
      norm_num
    show round1 (site_compliance_score
        (analyze_competitor net url max_pages).images_with_alt
        (analyze_competitor net url max_pages).total_images) = 100
    rw [h1, round1_hundred]

/-- C1 witness: a crawl whose every fetch raises reports zero images and
vacuous compliance 100. -/
theorem c1_compliance_score_bounds_witness :
    (analyze_competitor ex_net_fail "http://a.com/" 1).total_images = 0
    ∧ (analyze_competitor ex_net_fail "http://a.com/" 1).compliance_score = 100 :=
  ⟨rfl, (c1_compliance_score_bounds ex_net_fail "http://a.com/" 1).2.2.2 rfl⟩

/-- C7: the reported rank is the 1-based position (first occurrence) of
your compliance score in the list of all scores sorted descending; on the
concrete instance — your score 90, competitors 80 and 95 — the rank is 2,
the advantage list has exactly one entry and the improvement list exactly
one entry. -/
theorem c7_comparative_rank :
    (∀ (analyze : String → Except String AnalyzeResult) (your_url : String)
        (competitor_urls : List String) (yr : AnalyzeResult) (out : CompareResult),
      analyze your_url = Except.ok yr →
      compare_competitors analyze your_url competitor_urls = Except.ok out →
      out.comparison.your_rank
        = index_of_score yr.compliance_score
            (sort_desc (yr.compliance_score ::
              (competitor_urls.map (fun u =>
                match analyze u with
                | Except.ok r => CompResult.analyzed r
                | Except.error e => CompResult.failed u e)).map comp_score)) + 1)
    ∧ (∃ out, compare_competitors ex_rank_analyze "https://you.example/"
          ["https://c1.example/", "https://c2.example/"] = Except.ok out
        ∧ out.comparison.your_rank = 2
        ∧ out.comparison.advantage_areas.length = 1
        ∧ out.comparison.improvement_areas.length = 1) := by
  constructor
  · intro analyze y us yr out h1 h2
    unfold compare_competitors at h2
    rw [h1] at h2
    dsimp only at h2
    injection h2 with h2
    subst h2
    rfl
  · refine ⟨_, rfl, ?_, ?_, ?_⟩ <;> decide

/-- C7 witness: the general rank characterisation applied to the concrete
90 / [80, 95] instance. -/
theorem c7_comparative_rank_witness :
    ∃ out, compare_competitors ex_rank_analyze "https://you.example/"
        ["https://c1.example/", "https://c2.example/"] = Except.ok out
      ∧ out.comparison.your_rank
          = index_of_score (90 : ℚ) (sort_desc [(90 : ℚ), 80, 95]) + 1 := by
  refine ⟨_, rfl, ?_⟩
  have h := c7_comparative_rank.1 ex_rank_analyze "https://you.example/"
    ["https://c1.example/", "https://c2.example/"] ex_your _ rfl rfl
  exact h

/-- C8: the opportunity synthesizer's thresholds are strict: good ratio
exactly 50 yields no `seo_advantage` opportunity while any ratio below 50
(for example 49.9) yields exactly one; any ratio below 80 yields the
medium-impact `accessibility_leadership` note; and the generic
`image_search_ranking` note is appended unconditionally as the last
element, so the list is never empty. -/
theorem c8_opportunity_thresholds (pd : List PageData) (d : String) :
    (good_ratio pd = 50 →
      ((identify_opportunities pd d).filter
        (fun o => o.opp_type == "seo_advantage")).length = 0)
    ∧ (good_ratio pd < 50 →
      ((identify_opportunities pd d).filter
        (fun o => o.opp_type == "seo_advantage")).length = 1)
    ∧ (good_ratio pd < 80 →
      { opp_type := "accessibility_leadership", impact := "medium" }
        ∈ identify_opportunities pd d)
    ∧ (identify_opportunities pd d).getLast?
        = some { opp_type := "image_search_ranking", impact := "high" }
    ∧ identify_opportunities pd d ≠ [] := by
  refine ⟨?_, ?_, ?_, ?_, ?_⟩
  · intro h50
    unfold identify_opportunities
    rw [if_neg (by rw [h50]; norm_num)]
    by_cases h80 : good_ratio pd < 80
    · rw [if_pos h80]
      decide
    · rw [if_neg h80]
      decide
  · intro h50
    unfold identify_opportunities
    rw [if_pos h50, if_pos (lt_trans h50 (by norm_num))]
    decide
  · intro h80
    unfold identify_opportunities
    rw [if_pos h80]
    by_cases h50 : good_ratio pd < 50
    · rw [if_pos h50]
      decide
    · rw [if_neg h50]
      decide
  · unfold identify_opportunities
    by_cases h50 : good_ratio pd < 50 <;> by_cases h80 : good_ratio pd < 80 <;>
      simp [h50, h80]
  · unfold identify_opportunities
    by_cases h50 : good_ratio pd < 50 <;> by_cases h80 : good_ratio pd < 80 <;>
      simp [h50, h80]

/-- C8 witness: the theorem applied at good ratios exactly 50 (no
`seo_advantage`) and exactly 49.9 (one `seo_advantage`). -/
theorem c8_opportunity_thresholds_witness :
    ((identify_opportunities ex_pd_half "c.example").filter
        (fun o => o.opp_type == "seo_advantage")).length = 0
    ∧ ((identify_opportunities ex_pd_499 "c.example").filter
        (fun o => o.opp_type == "seo_advantage")).length = 1
    ∧ { opp_type := "accessibility_leadership", impact := "medium" }
        ∈ identify_opportunities ex_pd_half "c.example"
    ∧ identify_opportunities ex_pd_half "c.example" ≠ [] := by
  have h50 : good_ratio ex_pd_half = 50 := by
    unfold good_ratio ex_pd_half
    norm_num
  have h499 : good_ratio ex_pd_499 = 499 / 10 := by
    unfold good_ratio ex_pd_499
    norm_num
  refine ⟨(c8_opportunity_thresholds ex_pd_half "c.example").1 h50,
    (c8_opportunity_thresholds ex_pd_499 "c.example").2.1 (by rw [h499]; norm_num),
    (c8_opportunity_thresholds ex_pd_half "c.example").2.2.1 (by rw [h50]; norm_num),
    (c8_opportunity_thresholds ex_pd_half "c.example").2.2.2.2⟩

/-- C9: a failure on one unit of work never aborts the whole operation:
`check_url` turns a fetch exception into an error result with
`compliance_score = 0` and status `"error"` instead of raising, and in
`compare_competitors` a competitor whose analysis raises degrades to a
`CompResult.failed` entry (carrying the error and scored 0) at its
position while every other competitor is still analyzed. -/
theorem c9_failure_isolation :
    (∀ (url lvl e : String),
      check_url url lvl (Except.error e)
        = CheckResult.failure
            { url := url, error := e, compliance_score := 0, status := "error" })
    ∧ (∀ (u e : String), comp_score (CompResult.failed u e) = 0
        ∧ comp_error (CompResult.failed u e) = some e)
    ∧ (∀ (analyze : String → Except String AnalyzeResult) (y : String)
          (us : List String) (yr : AnalyzeResult),
        analyze y = Except.ok yr →
        ∃ out, compare_competitors analyze y us = Except.ok out
          ∧ out.competitor_detailed_results = us.map (fun u =>
              match analyze u with
              | Except.ok r => CompResult.analyzed r
              | Except.error e => CompResult.failed u e)) := by
  refine ⟨fun url lvl e => rfl, fun u e => ⟨rfl, rfl⟩, ?_⟩
  intro analyze y us yr h1
  unfold compare_competitors
  rw [h1]
  exact ⟨_, rfl, rfl⟩

/-- C2 witness: the crawler bounds instantiated on the link-dense fixture. -/
theorem c2_crawler_bounds_witness :
    (crawl ex_net_links "http://a.com/" 1).fetch_log.Nodup
    ∧ (crawl ex_net_links "http://a.com/" 1).visited.Nodup
    ∧ (crawl ex_net_links "http://a.com/" 1).visited.length ≤ 1
    ∧ (crawl ex_net_links "http://a.com/" 1).max_queue ≤ max 1 (1 * 2) :=
  c2_crawler_bounds ex_net_links "http://a.com/" 1

/-- C6 witness: the partition instantiated on a concrete two-image page. -/
theorem c6_tier_partition_witness :
    (analyze_page "https://x.example/" [decor_img_no_alt, mk_img "dog.jpg"
        (some "Golden retriever catching a red frisbee") "" ""]).images_missing_alt
      + (analyze_page "https://x.example/" [decor_img_no_alt, mk_img "dog.jpg"
          (some "Golden retriever catching a red frisbee") "" ""]).images_poor_alt
      + (analyze_page "https://x.example/" [decor_img_no_alt, mk_img "dog.jpg"
          (some "Golden retriever catching a red frisbee") "" ""]).images_good_alt
      = (analyze_page "https://x.example/" [decor_img_no_alt, mk_img "dog.jpg"
          (some "Golden retriever catching a red frisbee") "" ""]).total_images :=
  c6_tier_partition "https://x.example/" [decor_img_no_alt, mk_img "dog.jpg"
    (some "Golden retriever catching a red frisbee") "" ""]

/-- C10 witness: two calls with the same alt and different src values. -/
theorem c10_assess_depends_only_on_alt_witness :
    assess_alt_quality "photo" "a.jpg" = assess_alt_quality "photo" "b.png" :=
  c10_assess_depends_only_on_alt "photo" "a.jpg" "b.png"

/-- C9 witness: the theorem applied to a concrete fetch error and a
concrete comparison where the second competitor's analysis raises. -/
theorem c9_failure_isolation_witness :
    check_url "https://down.example/" "AAA" (Except.error "boom")
      = CheckResult.failure
          { url := "https://down.example/", error := "boom"
            compliance_score := 0, status := "error" }
    ∧ ∃ out, compare_competitors ex_fail_analyze "https://you.example/"
          ["https://c1.example/", "https://dead.example/"] = Except.ok out
        ∧ out.competitor_detailed_results
            = [CompResult.analyzed ex_comp80,
               CompResult.failed "https://dead.example/" "timeout"] := by
  refine ⟨c9_failure_isolation.1 "https://down.example/" "AAA" "boom", ?_⟩
  obtain ⟨out, h1, h2⟩ := c9_failure_isolation.2.2 ex_fail_analyze "https://you.example/"
    ["https://c1.example/", "https://dead.example/"] ex_your rfl
  exact ⟨out, h1, by rw [h2]; rfl⟩

end TheAltText
